import Mathlib

/-!
Shallow embedding of the auth-project backend.

The repository contains two variants of the same FastAPI backend:
- `V1` embeds `src/auth-project/dashboard-app/backend/main.py`
- `V2` embeds `src/dashboard-app/backend/main.py`

Each endpoint touches at most the record of the one username it receives
(DynamoDB `get_item`/`put_item`/`update_item` keyed by `username`), so every
operation is modelled as a function of the stored record for that username
(`Option Record`, `none` = absent) returning the HTTP result together with the
record after the call.  HTTP errors (`HTTPException`) are modelled as
`Except Err _` with the exact status code and detail string of the source.

External collaborators are modelled as follows, each by its documented
behaviour at the call site:
- `passlib` bcrypt (`pwd_context.hash` / `pwd_context.verify`): an injective
  encoding of the password; `verify` succeeds exactly on the hash of the
  same password.
- `pyotp.random_base32()`: the operations that call it take the freshly
  generated secret as an explicit argument (a random-oracle output).
- `pyotp.TOTP(secret).verify(code)`: pyotp's default `valid_window=0`
  compares the submitted code against the code of the *current* 30-second
  time step only.  The per-step code derivation (HMAC truncated to 6
  digits) is modelled by an executable stand-in on which distinct steps
  yield distinct codes, the generic case for HOTP.
- PyJWT `jwt.encode` / `jwt.decode` with HS256: a token is subject +
  expiry + a signature over both with the server key; `decode` rejects a
  wrong signature, a malformed token, and an expiry not in the future.
- Cognito (`admin_create_user`, `admin_update_user_attributes`): writes to
  the external identity provider, never to the DynamoDB record store, so
  it has no effect on the modelled record.
-/

set_option linter.unusedVariables false

deriving instance DecidableEq for Except

/-- Models `pwd_context.hash` (passlib bcrypt): an injective encoding. -/
def hashPw (p : String) : String := "bcrypt8$" ++ p

/-- `get_password_hash` of V1 (`pwd_context.hash`). -/
def get_password_hash (p : String) : String := hashPw p

/-- `verify_password(plain, hashed)`: true exactly on the hash of `plain`. -/
def verify_password (plain hashed : String) : Bool := hashPw plain == hashed

/-- Executable stand-in for a cryptographic hash of a string. -/
def strHash (s : String) : Nat :=
  s.data.foldl (fun a c => (a * 131 + c.toNat) % 1000003) 7

/-- The 6-digit TOTP code of `secret` at 30-second time step `step`
(stand-in for HOTP; adjacent steps always yield distinct codes, the
generic case). -/
def totpCode (secret : String) (step : Nat) : Nat :=
  (strHash secret + step) % 1000000

/-- `pyotp.TOTP(secret).verify(code)` at time `now` (seconds): pyotp's
default `valid_window=0` accepts only the current step's code. -/
def totpVerify (secret : String) (code : Nat) (now : Nat) : Bool :=
  code == totpCode secret (now / 30)

/-- An `HTTPException`: status code and detail string. -/
structure Err where
  status : Nat
  detail : String
deriving Repr, DecidableEq

/-- A decoded JWT payload: `{"sub": username, "exp": expiry}` (seconds). -/
structure Jwt where
  sub : String
  exp : Nat
  sig : Nat
deriving Repr, DecidableEq

/-- HS256 signature over subject and expiry with the server key
(executable stand-in). -/
def jwtSign (key sub : String) (exp : Nat) : Nat :=
  strHash (key ++ "|" ++ sub ++ "|" ++ toString exp)

/-- `jwt.encode({"sub": sub, "exp": exp}, key, "HS256")`. -/
def jwtEncode (sub : String) (exp : Nat) (key : String) : Jwt :=
  { sub := sub, exp := exp, sig := jwtSign key sub exp }

/-- `create_jwt_token(username)` of V2: subject `username`, expiry
`utcnow() + 24h`, signed with `JWT_SECRET`. -/
def create_jwt_token (username : String) (now : Nat) (key : String) : Jwt :=
  jwtEncode username (now + 86400) key

/-- A bearer-token value as received on the wire: either a structurally
valid JWT or a malformed string. -/
inductive TokenWire
  | jwt (j : Jwt)
  | malformed (raw : String)
deriving Repr, DecidableEq

/-- Errors raised by PyJWT `jwt.decode`. -/
inductive JwtErr
  | decodeError
  | badSignature
  | expired
deriving Repr, DecidableEq

/-- PyJWT `jwt.decode(token, key, ["HS256"])` at time `now`: rejects a
malformed token, a wrong signature, and an expiry not strictly in the
future; otherwise returns the subject. -/
def jwtDecode (t : TokenWire) (key : String) (now : Nat) : Except JwtErr String :=
  match t with
  | .malformed _ => .error .decodeError
  | .jwt j =>
    if j.sig ≠ jwtSign key j.sub j.exp then .error .badSignature
    else if j.exp ≤ now then .error .expired
    else .ok j.sub

/-- `Except.isOk` as a plain Bool (avoiding library-version differences). -/
def exOk {ε α : Type} : Except ε α → Bool
  | .ok _ => true
  | .error _ => false

namespace V1

/-- The DynamoDB item of `src/auth-project/dashboard-app/backend/main.py`.
Fields other than `password_hash` are read with `.get(...)` defaults in the
source, so they are `Option`s (`none` = attribute absent). -/
structure Record where
  password_hash : String
  first_login : Option Bool
  totp_secret : Option String
  totp_setup : Option Bool
  biometric_setup : Option Bool
deriving Repr, DecidableEq

/-- The four success shapes `/login` can return in V1. -/
inductive LoginResp
  | requiresChange
  | requiresTotp (secret : String)
  | requiresBiometric
  | accessToken (tok : String)
deriving Repr, DecidableEq

/-- `/login` of V1.  `fresh` is the value `pyotp.random_base32()` returns
if the TOTP-provisioning branch runs. -/
def login (user : Option Record) (password : String) (fresh : String) :
    Except Err LoginResp × Option Record :=
  match user with
  | none => (.error ⟨401, "Invalid credentials"⟩, none)
  | some u =>
    if ¬ verify_password password u.password_hash then
      (.error ⟨401, "Invalid credentials"⟩, some u)
    else if u.first_login.getD true then
      (.ok .requiresChange, some u)
    else if ¬ u.totp_setup.getD false then
      (.ok (.requiresTotp fresh),
       some { u with totp_secret := some fresh, totp_setup := some false })
    else if ¬ u.biometric_setup.getD false then
      (.ok .requiresBiometric, some u)
    else
      (.ok (.accessToken "dummy-jwt-token"), some u)

/-- `/change-password` of V1. -/
def change_password (user : Option Record) (old_password new_password : String) :
    Except Err String × Option Record :=
  match user with
  | none => (.error ⟨401, "Invalid credentials"⟩, none)
  | some u =>
    if ¬ verify_password old_password u.password_hash then
      (.error ⟨401, "Invalid credentials"⟩, some u)
    else if u.first_login.getD true then
      (.ok "Password changed. Proceed to TOTP setup.",
       some { u with password_hash := get_password_hash new_password,
                     first_login := some false })
    else
      (.error ⟨403, "Password change only allowed on first login"⟩, some u)

/-- `/setup-totp` of V1.  The bearer `token` is extracted by
`Depends(oauth2_scheme)` and never validated or used. -/
def setup_totp (user : Option Record) (totp_code : Nat) (token : TokenWire)
    (now : Nat) : Except Err String × Option Record :=
  match user with
  | none => (.error ⟨400, "TOTP not initialized"⟩, none)
  | some u =>
    if u.totp_secret.getD "" == "" then
      (.error ⟨400, "TOTP not initialized"⟩, some u)
    else if ¬ totpVerify (u.totp_secret.getD "") totp_code now then
      (.error ⟨401, "Invalid TOTP code"⟩, some u)
    else
      (.ok "TOTP setup complete. Proceed to biometric setup.",
       some { u with totp_setup := some true })

/-- `/setup-biometric` of V1.  The bearer `token` is never validated or
used; `cognito.admin_update_user_attributes` touches only Cognito. -/
def setup_biometric (user : Option Record) (token : TokenWire) :
    Except Err String × Option Record :=
  match user with
  | none => (.error ⟨400, "Complete TOTP setup first"⟩, none)
  | some u =>
    if ¬ u.totp_setup.getD false then
      (.error ⟨400, "Complete TOTP setup first"⟩, some u)
    else
      (.ok "Biometric setup complete. Login with biometrics next time.",
       some { u with biometric_setup := some true })

end V1

namespace V2

/-- The DynamoDB item of `src/dashboard-app/backend/main.py` as `put_item`
creates it (all keys present; `totp_secret`/`biometric_key` may be `None`,
modelled as `none`). -/
structure Record where
  password : String
  requires_change : Option Bool
  totp_secret : Option String
  biometric_key : Option String
deriving Repr, DecidableEq

/-- The success shapes `/login` can return in V2 (note: the TOTP response
carries no secret, and there is no biometric stage in V2's login). -/
inductive LoginResp
  | requiresChange
  | requiresTotp
  | token (tok : Jwt)
deriving Repr, DecidableEq

/-- The stage dispatch of V2 `/login` once a record is in hand. -/
def loginExisting (u : Record) (username password key : String) (now : Nat) :
    Except Err LoginResp :=
  if ¬ verify_password password u.password then
    .error ⟨401, "Invalid credentials"⟩
  else if u.requires_change.getD false then
    .ok .requiresChange
  else if u.totp_secret.getD "" ≠ "" then
    .ok .requiresTotp
  else
    .ok (.token (create_jwt_token username now key))

/-- `/login` of V2.  When the record is absent: in local mode `put_item`
writes a fresh record (hash of the supplied password, `requires_change =
True`, `totp_secret = None`, `biometric_key = None`) and the flow
continues on the re-read record; otherwise `admin_create_user` writes only
to Cognito, the re-read still finds nothing and the call fails 400. -/
def login (isLocal : Bool) (user : Option Record)
    (username password key : String) (now : Nat) :
    Except Err LoginResp × Option Record :=
  match user with
  | some u => (loginExisting u username password key now, some u)
  | none =>
    if isLocal then
      let r : Record :=
        { password := hashPw password, requires_change := some true,
          totp_secret := none, biometric_key := none }
      (loginExisting r username password key now, some r)
    else
      (.error ⟨400, "User creation failed"⟩, none)

/-- `/change-password` of V2.  `fresh` is the `pyotp.random_base32()`
value generated on every call that reaches that line.  The 401 raised on a
missing user or a wrong old password is swallowed by the function's
blanket `except Exception` and surfaces as 500. -/
def change_password (user : Option Record) (old_password new_password : String)
    (fresh : String) : Except Err (String × String) × Option Record :=
  match user with
  | none => (.error ⟨500, "Internal server error"⟩, none)
  | some u =>
    if ¬ verify_password old_password u.password then
      (.error ⟨500, "Internal server error"⟩, some u)
    else
      (.ok ("Password changed. Proceed to TOTP setup.", fresh),
       some { u with password := hashPw new_password,
                     requires_change := some false,
                     totp_secret := some fresh })

/-- The bearer-token check of V2's setup endpoints: skipped entirely in
local mode, otherwise `jwt.decode` (signature and expiry only; the subject
is discarded, never compared with `username`). -/
def tokenCheck (isLocal : Bool) (token : TokenWire) (key : String) (now : Nat) :
    Except JwtErr String :=
  if isLocal then .ok "" else jwtDecode token key now

/-- `/setup-totp` of V2.  A `jwt.decode` failure is not an
`HTTPException`, so the blanket handler surfaces it as 500.  On a
successful code verification NOTHING is written back to the store. -/
def setup_totp (isLocal : Bool) (user : Option Record) (totp_code : Nat)
    (token : TokenWire) (key : String) (now : Nat) :
    Except Err String × Option Record :=
  match tokenCheck isLocal token key now with
  | .error _ => (.error ⟨500, "Internal server error"⟩, user)
  | .ok _ =>
    match user with
    | none => (.error ⟨401, "User not found"⟩, none)
    | some u =>
      if u.totp_secret.getD "" == "" then
        (.error ⟨400, "TOTP secret not found"⟩, some u)
      else if ¬ totpVerify (u.totp_secret.getD "") totp_code now then
        (.error ⟨401, "Invalid TOTP code"⟩, some u)
      else
        (.ok "TOTP setup complete. Proceed to biometric setup.", some u)

/-- `/setup-biometric` of V2: after the token check it requires only that
the record exist — no TOTP-stage check of any kind — and writes
`biometric_key = "mock-biometric-key"`. -/
def setup_biometric (isLocal : Bool) (user : Option Record)
    (token : TokenWire) (key : String) (now : Nat) :
    Except Err String × Option Record :=
  match tokenCheck isLocal token key now with
  | .error _ => (.error ⟨500, "Internal server error"⟩, user)
  | .ok _ =>
    match user with
    | none => (.error ⟨401, "User not found"⟩, none)
    | some u =>
      (.ok "Biometric setup complete. Login with biometrics next time.",
       some { u with biometric_key := some "mock-biometric-key" })

end V2

/-! ## Claim theorems -/

/-- C1, counterexample: in the `src/auth-project` variant, `login` for an
unseen username IS treated as a credential failure — it returns 401
"Invalid credentials" and provisions nothing, contradicting the claim
that it provisions a record and returns the change-required response. -/
theorem C1_unseen_user_rejected_V1 :
    V1.login none "pw" "S" = (.error ⟨401, "Invalid credentials"⟩, none) := by
  decide

/-- C1, amended: only the `src/dashboard-app` variant in local mode
provisions an unseen username: it writes a record whose hash is that of
the supplied password with `requires_change = True` and returns the
change-required response with no token; outside local mode that variant
fails 400 "User creation failed" (the Cognito write never reaches the
record store), and the `src/auth-project` variant fails 401. -/
theorem C1_amended_provisioning (username password key fresh : String) (now : Nat) :
    V2.login true none username password key now =
      (.ok .requiresChange,
       some { password := hashPw password, requires_change := some true,
              totp_secret := none, biometric_key := none })
    ∧ V2.login false none username password key now =
      (.error ⟨400, "User creation failed"⟩, none)
    ∧ V1.login none password fresh =
      (.error ⟨401, "Invalid credentials"⟩, none) := by
  refine ⟨?_, rfl, rfl⟩
  simp [V2.login, V2.loginExisting, verify_password]

/-- C2, counterexample: with a record mid-enrollment whose TOTP secret
"S1" has already been generated, a further `login` in the
`src/auth-project` variant replaces the stored secret with the freshly
generated "S2" and reports "S2", not "S1" — the secret is neither
generated at most once nor immutable, and the second of two consecutive
mid-enrollment logins reports a different secret. -/
theorem C2_secret_regenerated_V1 :
    V1.login (some ⟨hashPw "p", some false, some "S1", some false, none⟩) "p" "S2" =
      (.ok (.requiresTotp "S2"),
       some ⟨hashPw "p", some false, some "S2", some false, none⟩)
    ∧ ("S2" : String) ≠ "S1" := by
  exact ⟨by decide, by decide⟩

/-- C2, amended: the TOTP secret is regenerated, not immutable: in the
`src/auth-project` variant every mid-enrollment `login` (password
correct, first login done, TOTP not yet confirmed) overwrites
`totp_secret` with the freshly generated value and reports it; in the
`src/dashboard-app` variant every successful `change_password` overwrites
`totp_secret` with a freshly generated value. -/
theorem C2_amended_secret_rotation (u : V1.Record) (p fresh : String)
    (u2 : V2.Record) (old_pw new_pw fresh2 : String)
    (h1 : verify_password p u.password_hash = true)
    (h2 : u.first_login.getD true = false)
    (h3 : u.totp_setup.getD false = false)
    (h4 : verify_password old_pw u2.password = true) :
    V1.login (some u) p fresh =
      (.ok (.requiresTotp fresh),
       some { u with totp_secret := some fresh, totp_setup := some false })
    ∧ V2.change_password (some u2) old_pw new_pw fresh2 =
      (.ok ("Password changed. Proceed to TOTP setup.", fresh2),
       some { u2 with password := hashPw new_pw, requires_change := some false,
                      totp_secret := some fresh2 }) := by
  constructor
  · simp [V1.login, h1, h2, h3]
  · simp [V2.change_password, h4]

/-- C2, witness for `C2_amended_secret_rotation` at concrete records. -/
theorem C2_amended_secret_rotation_witness :
    V1.login (some ⟨hashPw "p", some false, some "S1", some false, none⟩) "p" "S2" =
      (.ok (.requiresTotp "S2"),
       some ⟨hashPw "p", some false, some "S2", some false, none⟩)
    ∧ V2.change_password (some ⟨hashPw "x", some true, none, none⟩) "x" "y" "T1" =
      (.ok ("Password changed. Proceed to TOTP setup.", "T1"),
       some ⟨hashPw "y", some false, some "T1", none⟩) :=
  C2_amended_secret_rotation
    ⟨hashPw "p", some false, some "S1", some false, none⟩ "p" "S2"
    ⟨hashPw "x", some true, none, none⟩ "x" "y" "T1"
    (by decide) (by decide) (by decide) (by decide)

/-- C3, counterexample: in the `src/dashboard-app` variant, a record with
`requires_change = False`, no TOTP secret and NO biometric registration
(`biometric_key = None`) receives a signed session token from `login` —
the Authenticated-stage condition of the claim (all three flags set) is
not required by that variant, which never consults the biometric flag in
`login` and has no TOTP-confirmed flag at all. -/
theorem C3_token_without_biometric_V2 :
    V2.login true (some ⟨hashPw "p", some false, none, none⟩) "a" "p" "k" 0 =
      (.ok (.token (create_jwt_token "a" 0 "k")),
       some ⟨hashPw "p", some false, none, none⟩)
    ∧ (⟨hashPw "p", some false, none, none⟩ : V2.Record).biometric_key = none := by
  exact ⟨by decide, rfl⟩

/-- C3, amended: the claim holds for the `src/auth-project` variant:
`login` returns a token exactly when the record exists, the password
matches, `first_login` is cleared, `totp_setup` is set and
`biometric_setup` is set; and with a correct password `login` never
errors, so every non-Authenticated stage gets a stage-advance response.
In the `src/dashboard-app` variant a token is instead returned whenever
the password matches, `requires_change` is false and no TOTP secret is
present, irrespective of biometric registration. -/
theorem C3_amended_token_stage (user : Option V1.Record) (p fresh : String) :
    ((∃ tok, (V1.login user p fresh).1 = .ok (.accessToken tok)) ↔
      (∃ u, user = some u ∧ verify_password p u.password_hash = true ∧
        u.first_login.getD true = false ∧ u.totp_setup.getD false = true ∧
        u.biometric_setup.getD false = true))
    ∧ (∀ u : V1.Record, verify_password p u.password_hash = true →
        exOk (V1.login (some u) p fresh).1 = true)
    ∧ (∀ (u2 : V2.Record) (username key : String) (now : Nat),
        verify_password p u2.password = true →
        u2.requires_change.getD false = false →
        u2.totp_secret.getD "" = "" →
        (V2.login true (some u2) username p key now).1 =
          .ok (.token (create_jwt_token username now key))) := by
  refine ⟨?_, ?_, ?_⟩
  · cases user with
    | none => simp [V1.login]
    | some u =>
      simp only [V1.login]
      split_ifs with h1 h2 h3 h4 <;>
        simp_all [eq_comm (a := some u)]
  · intro u hpw
    simp only [V1.login, hpw]
    split_ifs <;> simp_all [exOk]
  · intro u2 username key now hpw hrc hts
    simp [V2.login, V2.loginExisting, hpw, hrc, hts]

/-- C3, witness for `C3_amended_token_stage` at a concrete Authenticated
record (and concrete V2 record). -/
theorem C3_amended_token_stage_witness :
    (∃ tok, (V1.login (some ⟨hashPw "p", some false, some "S", some true, some true⟩) "p" "F").1 =
      .ok (.accessToken tok))
    ∧ (V2.login true (some ⟨hashPw "p", some false, none, none⟩) "a" "p" "k" 0).1 =
      .ok (.token (create_jwt_token "a" 0 "k")) := by
  refine ⟨?_, ?_⟩
  · exact (C3_amended_token_stage
      (some ⟨hashPw "p", some false, some "S", some true, some true⟩) "p" "F").1.2
      ⟨⟨hashPw "p", some false, some "S", some true, some true⟩,
        rfl, by decide, rfl, rfl, rfl⟩
  · exact (C3_amended_token_stage
      (some ⟨hashPw "p", some false, some "S", some true, some true⟩) "p" "F").2.2
      ⟨hashPw "p", some false, none, none⟩ "a" "k" 0 (by decide) rfl rfl

/-- C4, counterexample: in the `src/dashboard-app` variant a
`change_password` call on a record whose `requires_change` flag is
already cleared still succeeds when the old password matches (and even
rotates the TOTP secret) — it is not rejected with the 403 flow-order
error the claim requires for any call after the mandatory first change. -/
theorem C4_second_change_allowed_V2 :
    V2.change_password (some ⟨hashPw "x", some false, none, none⟩) "x" "y" "T1" =
      (.ok ("Password changed. Proceed to TOTP setup.", "T1"),
       some ⟨hashPw "y", some false, some "T1", none⟩) := by
  decide

/-- C4, amended: the claim holds for the `src/auth-project` variant: with
a matching old password, `change_password` succeeds iff `first_login` is
still set; on success it writes the hash of the new password and clears
the flag, and a repeat call on the updated record is rejected with 403
"Password change only allowed on first login" (the flow-order error).
The `src/dashboard-app` variant instead accepts any call whose old
password matches, regardless of the flag. -/
theorem C4_amended_first_login_only (u : V1.Record) (old_pw new_pw : String)
    (hpw : verify_password old_pw u.password_hash = true) :
    (exOk (V1.change_password (some u) old_pw new_pw).1 = true ↔
      u.first_login.getD true = true)
    ∧ (u.first_login.getD true = true →
        (V1.change_password (some u) old_pw new_pw).2 =
          some { u with password_hash := get_password_hash new_pw,
                        first_login := some false })
    ∧ (u.first_login.getD true = false →
        (V1.change_password (some u) old_pw new_pw).1 =
          .error ⟨403, "Password change only allowed on first login"⟩)
    ∧ (u.first_login.getD true = true →
        (V1.change_password ((V1.change_password (some u) old_pw new_pw).2)
            new_pw new_pw).1 =
          .error ⟨403, "Password change only allowed on first login"⟩) := by
  refine ⟨?_, ?_, ?_, ?_⟩
  · simp only [V1.change_password, hpw]
    split_ifs with h <;> simp_all [exOk]
  · intro h
    simp [V1.change_password, hpw, h]
  · intro h
    simp [V1.change_password, hpw, h]
  · intro h
    have hpw' : hashPw old_pw = u.password_hash := by
      simpa [verify_password] using hpw
    simp [V1.change_password, verify_password, get_password_hash, hpw', h]

/-- C4, witness for `C4_amended_first_login_only` at a concrete record
still in the must-change stage. -/
theorem C4_amended_first_login_only_witness :
    (exOk (V1.change_password (some ⟨hashPw "x", some true, none, none, none⟩) "x" "y").1 = true ↔
      (some true : Option Bool).getD true = true)
    ∧ ((some true : Option Bool).getD true = true →
        (V1.change_password ((V1.change_password
            (some ⟨hashPw "x", some true, none, none, none⟩) "x" "y").2) "y" "y").1 =
          .error ⟨403, "Password change only allowed on first login"⟩) :=
  ⟨(C4_amended_first_login_only ⟨hashPw "x", some true, none, none, none⟩ "x" "y" (by decide)).1,
   fun h => (C4_amended_first_login_only ⟨hashPw "x", some true, none, none, none⟩ "x" "y"
      (by decide)).2.2.2 h⟩

/-- C5: evaluation of the `src/dashboard-app` variant at the failing
input.  With a TOTP secret "S" stored and the correct current code
submitted at time 60, `setup_totp` reports success ("TOTP setup
complete. Proceed to biometric setup.") yet writes NOTHING back — the
record is returned exactly unchanged, no confirmation flag exists or is
set — and a subsequent `login` with the correct password still answers
`requires_totp`, so the advertised progression is impossible.  (The
NotProvisioned half of the claim does hold in both variants: a record
without a secret gets 400.) -/
theorem C5_totp_confirm_not_persisted_V2 :
    V2.setup_totp true (some ⟨hashPw "p", some false, some "S", none⟩)
        (totpCode "S" 2) (.malformed "t") "k" 60 =
      (.ok "TOTP setup complete. Proceed to biometric setup.",
       some ⟨hashPw "p", some false, some "S", none⟩)
    ∧ (V2.login true (some ⟨hashPw "p", some false, some "S", none⟩) "a" "p" "k" 999).1 =
      .ok .requiresTotp
    ∧ (V2.setup_totp true (some ⟨hashPw "p", some false, none, none⟩)
        0 (.malformed "t") "k" 60).1 = .error ⟨400, "TOTP secret not found"⟩
    ∧ (V1.setup_totp (some ⟨hashPw "p", some false, none, none, none⟩)
        0 (.malformed "t") 60).1 = .error ⟨400, "TOTP not initialized"⟩
    ∧ (V1.setup_totp (some ⟨hashPw "p", some false, some "S", some false, none⟩)
        (totpCode "S" 2) (.malformed "t") 60).2 =
      some ⟨hashPw "p", some false, some "S", some true, none⟩ := by
  refine ⟨by decide, by decide, by decide, by decide, by decide⟩

/-- C6, counterexample: in the `src/dashboard-app` variant,
`setup_biometric` on a record with no TOTP confirmation of any kind (not
even a TOTP secret) succeeds and records the biometric key — there is no
`totp_confirmed` check and no flow-order error, contradicting the claim. -/
theorem C6_biometric_without_totp_V2 :
    V2.setup_biometric true (some ⟨hashPw "p", some false, none, none⟩)
        (.malformed "t") "k" 0 =
      (.ok "Biometric setup complete. Login with biometrics next time.",
       some ⟨hashPw "p", some false, none, some "mock-biometric-key"⟩) := by
  decide

/-- C6, amended: the claim holds for the `src/auth-project` variant:
`setup_biometric` fails 400 "Complete TOTP setup first" (the flow-order
error) and leaves the record unchanged whenever `totp_setup` is not set,
and on success records `biometric_setup = true`.  The `src/dashboard-app`
variant performs no TOTP check at all and succeeds on any existing
record. -/
theorem C6_amended_totp_gate_V1 (u : V1.Record) (tok : TokenWire) :
    (u.totp_setup.getD false = false →
      V1.setup_biometric (some u) tok =
        (.error ⟨400, "Complete TOTP setup first"⟩, some u))
    ∧ (u.totp_setup.getD false = true →
      V1.setup_biometric (some u) tok =
        (.ok "Biometric setup complete. Login with biometrics next time.",
         some { u with biometric_setup := some true })) := by
  constructor
  · intro h
    simp [V1.setup_biometric, h]
  · intro h
    simp [V1.setup_biometric, h]

/-- C6, witness for `C6_amended_totp_gate_V1` at concrete records in each
stage. -/
theorem C6_amended_totp_gate_V1_witness :
    V1.setup_biometric (some ⟨hashPw "p", some false, some "S", some false, none⟩)
        (.malformed "t") =
      (.error ⟨400, "Complete TOTP setup first"⟩,
       some ⟨hashPw "p", some false, some "S", some false, none⟩)
    ∧ V1.setup_biometric (some ⟨hashPw "p", some false, some "S", some true, none⟩)
        (.malformed "t") =
      (.ok "Biometric setup complete. Login with biometrics next time.",
       some ⟨hashPw "p", some false, some "S", some true, some true⟩) :=
  ⟨(C6_amended_totp_gate_V1 ⟨hashPw "p", some false, some "S", some false, none⟩
      (.malformed "t")).1 rfl,
   (C6_amended_totp_gate_V1 ⟨hashPw "p", some false, some "S", some true, none⟩
      (.malformed "t")).2 rfl⟩

/-- C7, counterexample: both variants call `pyotp.TOTP(secret).verify`
with its default `valid_window=0`, so only the code of the current
30-second step is accepted.  At time 60 (step 2), the code valid for
time 30 (the step of now − 30s) and the code valid for time 90 (now +
30s) are both rejected with 401 "Invalid TOTP code", though the claim
says they must succeed; those codes really belong only to the adjacent
steps since they differ from the current step's code. -/
theorem C7_adjacent_step_rejected :
    (V1.setup_totp (some ⟨hashPw "p", some false, some "S", some false, none⟩)
        (totpCode "S" 1) (.malformed "t") 60).1 = .error ⟨401, "Invalid TOTP code"⟩
    ∧ (V1.setup_totp (some ⟨hashPw "p", some false, some "S", some false, none⟩)
        (totpCode "S" 3) (.malformed "t") 60).1 = .error ⟨401, "Invalid TOTP code"⟩
    ∧ (V2.setup_totp true (some ⟨hashPw "p", some false, some "S", none⟩)
        (totpCode "S" 1) (.malformed "t") "k" 60).1 = .error ⟨401, "Invalid TOTP code"⟩
    ∧ totpCode "S" 1 ≠ totpCode "S" 2
    ∧ totpCode "S" 3 ≠ totpCode "S" 2
    ∧ (60 : Nat) / 30 = 2 ∧ (30 : Nat) / 30 = 1 ∧ (90 : Nat) / 30 = 3 := by
  refine ⟨by decide, by decide, by decide, by decide, by decide, rfl, rfl, rfl⟩

/-- C7, amended: TOTP verification accepts exactly the code of the
current 30-second time step (pyotp's default window 0), with no
adjacent-step tolerance: on a record holding secret `s`, `setup_totp`
succeeds iff the submitted code equals `totpCode s (now / 30)`, in both
variants (V2 shown in local mode, where the token check is skipped), and
on success V1 sets `totp_setup`. -/
theorem C7_amended_current_step_only (u : V1.Record) (u2 : V2.Record)
    (s : String) (c now : Nat) (tok : TokenWire) (key : String)
    (hs : u.totp_secret = some s) (hs2 : u2.totp_secret = some s) (hne : s ≠ "") :
    (exOk (V1.setup_totp (some u) c tok now).1 = true ↔ c = totpCode s (now / 30))
    ∧ (exOk (V2.setup_totp true (some u2) c tok key now).1 = true ↔
        c = totpCode s (now / 30))
    ∧ (c = totpCode s (now / 30) →
        (V1.setup_totp (some u) c tok now).2 = some { u with totp_setup := some true }) := by
  refine ⟨?_, ?_, ?_⟩
  · simp only [V1.setup_totp, hs, totpVerify, Option.getD_some]
    split_ifs with h1 h2 <;> simp_all [exOk]
  · simp only [V2.setup_totp, V2.tokenCheck, hs2, totpVerify, Option.getD_some]
    split_ifs with h1 h2 <;> simp_all [exOk]
  · intro h
    simp [V1.setup_totp, hs, totpVerify, hne, h]

/-- C7, witness for `C7_amended_current_step_only` at a concrete record
and the correct current-step code. -/
theorem C7_amended_current_step_only_witness :
    (exOk (V1.setup_totp (some ⟨hashPw "p", some false, some "S", some false, none⟩)
        (totpCode "S" 2) (.malformed "t") 60).1 = true ↔
      totpCode "S" 2 = totpCode "S" (60 / 30))
    ∧ ((V1.setup_totp (some ⟨hashPw "p", some false, some "S", some false, none⟩)
        (totpCode "S" 2) (.malformed "t") 60).2 =
      some ⟨hashPw "p", some false, some "S", some true, none⟩) := by
  have h := C7_amended_current_step_only
    ⟨hashPw "p", some false, some "S", some false, none⟩
    ⟨hashPw "p", some false, some "S", none⟩ "S" (totpCode "S" 2) 60
    (.malformed "t") "k" rfl rfl (by decide)
  exact ⟨h.1, h.2.2 (by decide)⟩

/-- C8: a token issued by `create_jwt_token` for `u` at time `T` embeds
subject `u` and expiry `T + 24h`; `jwt.decode` accepts it, returning `u`,
at every time up to `T + 23h59m` (any offset `d ≤ 86340`), rejects it as
expired at `T + 24h01m` (`T + 86460`), and rejects any token whose
signature does not match as well as any malformed token. -/
theorem C8_token_lifetime (u key : String) (T d : Nat) (hd : d ≤ 86340)
    (j : Jwt) (hsig : j.sig ≠ jwtSign key j.sub j.exp) (raw : String) (n2 : Nat) :
    (create_jwt_token u T key).sub = u
    ∧ (create_jwt_token u T key).exp = T + 86400
    ∧ jwtDecode (.jwt (create_jwt_token u T key)) key (T + d) = .ok u
    ∧ jwtDecode (.jwt (create_jwt_token u T key)) key (T + 86460) = .error .expired
    ∧ jwtDecode (.jwt j) key n2 = .error .badSignature
    ∧ jwtDecode (.malformed raw) key n2 = .error .decodeError := by
  refine ⟨rfl, rfl, ?_, ?_, ?_, rfl⟩
  · have hexp : ¬ (T + 86400 ≤ T + d) := by omega
    simp [jwtDecode, create_jwt_token, jwtEncode, hexp]
  · have hexp : T + 86400 ≤ T + 86460 := by omega
    simp [jwtDecode, create_jwt_token, jwtEncode, hexp]
  · simp [jwtDecode, hsig]

/-- C8, witness for `C8_token_lifetime` at a concrete subject, key,
issue time, offset and tampered token. -/
theorem C8_token_lifetime_witness :
    jwtDecode (.jwt (create_jwt_token "a" 100 "k")) "k" (100 + 86340) = .ok "a"
    ∧ jwtDecode (.jwt (create_jwt_token "a" 100 "k")) "k" (100 + 86460) = .error .expired
    ∧ jwtDecode (.jwt ⟨"a", 500, jwtSign "k" "a" 500 + 1⟩) "k" 0 = .error .badSignature :=
  ⟨(C8_token_lifetime "a" "k" 100 86340 (by decide)
      ⟨"a", 500, jwtSign "k" "a" 500 + 1⟩ (by decide) "x" 0).2.2.1,
   (C8_token_lifetime "a" "k" 100 86340 (by decide)
      ⟨"a", 500, jwtSign "k" "a" 500 + 1⟩ (by decide) "x" 0).2.2.2.1,
   (C8_token_lifetime "a" "k" 100 86340 (by decide)
      ⟨"a", 500, jwtSign "k" "a" 500 + 1⟩ (by decide) "x" 0).2.2.2.2.1⟩

/-- C9: no operation of either variant persists partial state on
failure: whenever the returned result is an HTTP error, the stored
record after the call is exactly the record before it (in particular a
`login` with a wrong password returns 401 and leaves the record
unmodified). -/
theorem C9_no_partial_state (u1 : Option V1.Record) (u2 : Option V2.Record)
    (isLocal : Bool) (username p old_pw new_pw fresh key : String)
    (c now : Nat) (tok : TokenWire) :
    (exOk (V1.login u1 p fresh).1 = false → (V1.login u1 p fresh).2 = u1)
    ∧ (exOk (V1.change_password u1 old_pw new_pw).1 = false →
        (V1.change_password u1 old_pw new_pw).2 = u1)
    ∧ (exOk (V1.setup_totp u1 c tok now).1 = false →
        (V1.setup_totp u1 c tok now).2 = u1)
    ∧ (exOk (V1.setup_biometric u1 tok).1 = false →
        (V1.setup_biometric u1 tok).2 = u1)
    ∧ (exOk (V2.login isLocal u2 username p key now).1 = false →
        (V2.login isLocal u2 username p key now).2 = u2)
    ∧ (exOk (V2.change_password u2 old_pw new_pw fresh).1 = false →
        (V2.change_password u2 old_pw new_pw fresh).2 = u2)
    ∧ (exOk (V2.setup_totp isLocal u2 c tok key now).1 = false →
        (V2.setup_totp isLocal u2 c tok key now).2 = u2)
    ∧ (exOk (V2.setup_biometric isLocal u2 tok key now).1 = false →
        (V2.setup_biometric isLocal u2 tok key now).2 = u2) := by
  refine ⟨?_, ?_, ?_, ?_, ?_, ?_, ?_, ?_⟩
  · cases u1 with
    | none => intro _; rfl
    | some u => simp only [V1.login]; split_ifs <;> simp [exOk]
  · cases u1 with
    | none => intro _; rfl
    | some u => simp only [V1.change_password]; split_ifs <;> simp [exOk]
  · cases u1 with
    | none => intro _; rfl
    | some u => simp only [V1.setup_totp]; split_ifs <;> simp [exOk]
  · cases u1 with
    | none => intro _; rfl
    | some u => simp only [V1.setup_biometric]; split_ifs <;> simp [exOk]
  · cases u2 with
    | none =>
      cases isLocal with
      | false => intro _; rfl
      | true =>
        simp [V2.login, V2.loginExisting, verify_password, exOk]
    | some u => intro _; rfl
  · cases u2 with
    | none => intro _; rfl
    | some u => simp only [V2.change_password]; split_ifs <;> simp [exOk]
  · simp only [V2.setup_totp]
    cases h : V2.tokenCheck isLocal tok key now with
    | error e => intro _; rfl
    | ok s =>
      cases u2 with
      | none => intro _; rfl
      | some u =>
        dsimp only
        split_ifs <;> simp [exOk]
  · simp only [V2.setup_biometric]
    cases h : V2.tokenCheck isLocal tok key now with
    | error e => intro _; rfl
    | ok s =>
      cases u2 with
      | none => intro _; rfl
      | some u => simp [exOk]

/-- C9, witness for `C9_no_partial_state`: a concrete wrong-password
`login` fails 401 and leaves the concrete record in place. -/
theorem C9_no_partial_state_witness :
    exOk (V1.login (some ⟨hashPw "p", some true, none, none, none⟩) "wrong" "S").1 = false
    ∧ (V1.login (some ⟨hashPw "p", some true, none, none, none⟩) "wrong" "S").2 =
      some ⟨hashPw "p", some true, none, none, none⟩ :=
  ⟨by decide,
   (C9_no_partial_state (some ⟨hashPw "p", some true, none, none, none⟩) none
      true "a" "wrong" "o" "n" "S" "k" 0 0 (.malformed "t")).1 (by decide)⟩

/-- C10: the bearer token of the setup endpoints is never bound to the
`username` argument.  In the `src/auth-project` variant the token is
extracted and never inspected, so any two token values give identical
results; in the `src/dashboard-app` variant only signature and expiry
are checked (and in local mode nothing is), the decoded subject being
discarded, so any two tokens passing that check give identical results
and state effects on the target record — a valid token issued for ANY
subject authorizes `setup_totp`/`setup_biometric` on every username. -/
theorem C10_token_not_bound_to_username (u1 : Option V1.Record)
    (u2 : Option V2.Record) (isLocal : Bool) (key : String) (c now : Nat)
    (t1 t2 : TokenWire)
    (h : isLocal = true ∨
      ((∃ a, jwtDecode t1 key now = .ok a) ∧ (∃ b, jwtDecode t2 key now = .ok b))) :
    V1.setup_totp u1 c t1 now = V1.setup_totp u1 c t2 now
    ∧ V1.setup_biometric u1 t1 = V1.setup_biometric u1 t2
    ∧ V2.setup_totp isLocal u2 c t1 key now = V2.setup_totp isLocal u2 c t2 key now
    ∧ V2.setup_biometric isLocal u2 t1 key now = V2.setup_biometric isLocal u2 t2 key now := by
  refine ⟨rfl, rfl, ?_, ?_⟩ <;>
  · rcases h with h | ⟨⟨a, ha⟩, ⟨b, hb⟩⟩
    · subst h; rfl
    · cases isLocal with
      | true => rfl
      | false =>
        simp only [V2.setup_totp, V2.setup_biometric, V2.tokenCheck,
          Bool.false_eq_true, if_false, ha, hb]

/-- C10, witness for `C10_token_not_bound_to_username`: two valid tokens
signed for DIFFERENT subjects "a" and "b" yield identical outcomes of
the setup operations on a third user's record, outside local mode. -/
theorem C10_token_not_bound_to_username_witness :
    V2.setup_totp false (some ⟨hashPw "p", some false, some "S", none⟩)
        (totpCode "S" 2) (.jwt (jwtEncode "a" 100 "k")) "k" 60 =
      V2.setup_totp false (some ⟨hashPw "p", some false, some "S", none⟩)
        (totpCode "S" 2) (.jwt (jwtEncode "b" 100 "k")) "k" 60
    ∧ V2.setup_biometric false (some ⟨hashPw "p", some false, some "S", none⟩)
        (.jwt (jwtEncode "a" 100 "k")) "k" 60 =
      V2.setup_biometric false (some ⟨hashPw "p", some false, some "S", none⟩)
        (.jwt (jwtEncode "b" 100 "k")) "k" 60 :=
  ⟨(C10_token_not_bound_to_username none
      (some ⟨hashPw "p", some false, some "S", none⟩) false "k" (totpCode "S" 2) 60
      (.jwt (jwtEncode "a" 100 "k")) (.jwt (jwtEncode "b" 100 "k"))
      (Or.inr ⟨⟨"a", by decide⟩, ⟨"b", by decide⟩⟩)).2.2.1,
   (C10_token_not_bound_to_username none
      (some ⟨hashPw "p", some false, some "S", none⟩) false "k" (totpCode "S" 2) 60
      (.jwt (jwtEncode "a" 100 "k")) (.jwt (jwtEncode "b" 100 "k"))
      (Or.inr ⟨⟨"a", by decide⟩, ⟨"b", by decide⟩⟩)).2.2.2⟩
